import Mathlib

/-!
Verification of NationalLibraryOfNorway/automation-tools against its design
specification.

The repository has two source modules:
  * `aips/create_dips_job.py` — the batch driver: opens a persistent ledger of
    already-claimed AIP identifiers, lists AIPs from the Storage Service,
    filters them client-side by location (`filter_aips`), claims each one in
    the ledger (insert with a uniqueness constraint, `IntegrityError` caught
    and absorbed as "already claimed"), invokes external DIP creation, and
    dispatches to an upload collaborator.
  * `dips/storage_service_upload.py` — the upload orchestrator: stages a DIP
    under the pipeline's shared directory, submits it to the Storage
    Service's asynchronous endpoint, polls the returned job handle with
    `check_async`, then cleans up the staging copy and optionally the local
    copy.

The embedding below mirrors those functions.  Side effects (filesystem
operations, HTTP calls, log lines) are made explicit as event traces; Python
exceptions are an `Except` error channel distinguishing
`requests.exceptions.RequestException` from `KeyError`, because the
orchestrator's handler catches only the former.
-/

namespace AutomationTools

/-! ## Location filter (`aips/create_dips_job.py`, `filter_aips`) -/

/-- An AIP record as returned by the Storage Service listing.  Only the two
keys inspected by `filter_aips` are modelled; each is optional because the
Python code tests `"uuid" not in aip` and `"current_location" not in aip`. -/
structure AipRecord where
  uuid : Option String
  current_location : Option String
deriving DecidableEq, Repr

/-- The canonical location reference template
`"/api/v2/location/{}/".format(location_uuid)`. -/
def locationTemplate (location_uuid : String) : String :=
  "/api/v2/location/" ++ location_uuid ++ "/"

/-- Loop body of `filter_aips`: walk the records in order, skipping any with
a missing `uuid` key, a missing `current_location` key, or a
`current_location` different from the canonical target, appending the `uuid`
of every surviving record. -/
def filterAipsGo (location : String) : List AipRecord → List String
  | [] => []
  | aip :: rest =>
    match aip.uuid with
    | none => filterAipsGo location rest
    | some u =>
      match aip.current_location with
      | none => filterAipsGo location rest
      | some loc =>
        if loc ≠ location then filterAipsGo location rest
        else u :: filterAipsGo location rest

/-- `filter_aips(aips, location_uuid)`: filters a list of AIPs based on a
location UUID, returning the list of UUIDs of the AIPs in that location. -/
def filter_aips (aips : List AipRecord) (location_uuid : String) : List String :=
  filterAipsGo (locationTemplate location_uuid) aips

/-- Specification-side description of the filter (`filterByLocation` of the
design spec, §4.2): exactly the identifiers of the records whose
current-location reference equals the canonical form of the target, in input
order, records missing either field excluded unconditionally. -/
def filterByLocationSpec (aips : List AipRecord) (location_uuid : String) : List String :=
  aips.filterMap fun a =>
    match a.uuid, a.current_location with
    | some u, some loc => if loc = locationTemplate location_uuid then some u else none
    | _, _ => none

theorem filterAipsGo_eq_spec (location_uuid : String) (aips : List AipRecord) :
    filterAipsGo (locationTemplate location_uuid) aips =
      filterByLocationSpec aips location_uuid := by
  induction aips with
  | nil => rfl
  | cons a rest ih =>
    cases hu : a.uuid with
    | none => simp [filterAipsGo, filterByLocationSpec, hu]; exact ih
    | some u =>
      cases hl : a.current_location with
      | none => simp [filterAipsGo, filterByLocationSpec, hu, hl]; exact ih
      | some loc =>
        by_cases hloc : loc = locationTemplate location_uuid
        · simp [filterAipsGo, filterByLocationSpec, hu, hl, hloc]; exact ih
        · simp [filterAipsGo, filterByLocationSpec, hu, hl, hloc]; exact ih

/-! ## Async job poller (`dips/storage_service_upload.py`, `check_async`) -/

/-- A value of the `result` payload of a finished job; the orchestrator only
ever looks the `uuid` key up in it (`if "uuid" in ret`), so that is the one
modelled key, optional. -/
structure SsResult where
  uuid : Option String
deriving DecidableEq, Repr

/-- The JSON payload of one poll response.  Every key is optional: the Python
code subscripts `payload["completed"]`, `payload["was_error"]`,
`payload["error"]` and `payload["result"]` directly, so a missing key raises
`KeyError`. -/
structure SsPayload where
  completed : Option Bool
  was_error : Option Bool
  error : Option String
  result : Option SsResult
deriving DecidableEq, Repr

/-- Outcome of one `requests.get` on the poll URL: either a transport-level
fault (connection error, or a non-2xx status turned into an exception by
`raise_for_status`), or a 2xx response with a JSON payload. -/
inductive PollHttp where
  | transportError (msg : String)
  | ok (payload : SsPayload)
deriving DecidableEq, Repr

/-- Python exceptions that can escape the poller: a
`requests.exceptions.RequestException` (raised by the transport or by the
poller itself on `was_error`) or a `KeyError` on a missing payload key. -/
inductive PyExc where
  | requestException (msg : String)
  | keyError (key : String)
deriving DecidableEq, Repr

/-- Result of a `check_async` run: the outcome (`Except.error` = an exception
propagates; `Except.ok none` = the loop exhausted its attempts and the
function returns `None`; `Except.ok (some r)` = the job's `result` payload),
together with the number of status requests issued and the number of
`time.sleep` calls performed. -/
structure PollOutcome where
  outcome : Except PyExc (Option SsResult)
  requestsCount : Nat
  sleepCount : Nat
deriving Repr

/-- `check_async(url, headers, tries, interval)` over a scripted sequence of
HTTP responses: up to `tries` times, issue a status request
(`raise_for_status` turns a transport fault into an exception), read
`payload["completed"]`; if falsy, sleep and continue; otherwise read
`payload["was_error"]`: if truthy, raise `RequestException(payload["error"])`,
else return `payload["result"]`.  Falling off the loop returns `None`.
An exhausted response script stands for a connection failure of
`requests.get`. -/
def check_async : List PollHttp → Nat → PollOutcome
  | _, 0 => ⟨Except.ok none, 0, 0⟩
  | [], Nat.succ _ => ⟨Except.error (PyExc.requestException "connection error"), 1, 0⟩
  | PollHttp.transportError e :: _, Nat.succ _ =>
      ⟨Except.error (PyExc.requestException e), 1, 0⟩
  | PollHttp.ok p :: rest, Nat.succ n =>
    match p.completed with
    | none => ⟨Except.error (PyExc.keyError "completed"), 1, 0⟩
    | some false =>
        let r := check_async rest n
        ⟨r.outcome, r.requestsCount + 1, r.sleepCount + 1⟩
    | some true =>
      match p.was_error with
      | none => ⟨Except.error (PyExc.keyError "was_error"), 1, 0⟩
      | some true =>
        match p.error with
        | none => ⟨Except.error (PyExc.keyError "error"), 1, 0⟩
        | some e => ⟨Except.error (PyExc.requestException e), 1, 0⟩
      | some false =>
        match p.result with
        | none => ⟨Except.error (PyExc.keyError "result"), 1, 0⟩
        | some res => ⟨Except.ok (some res), 1, 0⟩

theorem check_async_requests_le (rs : List PollHttp) (t : Nat) :
    (check_async rs t).requestsCount ≤ t := by
  induction t generalizing rs with
  | zero => simp [check_async]
  | succ n ih =>
    match rs with
    | [] => simp [check_async]
    | PollHttp.transportError e :: rest => simp [check_async]
    | PollHttp.ok p :: rest =>
      cases hc : p.completed with
      | none => simp [check_async, hc]
      | some b =>
        cases b with
        | false =>
          simp only [check_async, hc]
          exact Nat.succ_le_succ (ih rest)
        | true =>
          cases hw : p.was_error with
          | none => simp [check_async, hc, hw]
          | some w =>
            cases w with
            | true =>
              cases he : p.error with
              | none => simp [check_async, hc, hw, he]
              | some e => simp [check_async, hc, hw, he]
            | false =>
              cases hr : p.result with
              | none => simp [check_async, hc, hw, hr]
              | some r => simp [check_async, hc, hw, hr]

/-! ## Upload orchestrator (`dips/storage_service_upload.py`, `main`) -/

/-- Model of `posixpath.join` for two components, as used by
`os.path.join` in the source: an absolute second component replaces the
first; otherwise the components are glued with a single `/` unless the first
is empty or already ends in one. -/
def os_path_join (a b : String) : String :=
  if b.startsWith "/" then b
  else if a = "" ∨ a.endsWith "/" then a ++ b
  else a ++ "/" ++ b

/-- Model of `os.path.basename`: everything after the last `/`. -/
def os_path_basename (p : String) : String :=
  (p.splitOn "/").getLastD p

/-- The staging directory the orchestrator computes:
`os.path.join(shared_directory, "watchedDirectories", "uploadDIP",
os.path.basename(dip_path))`. -/
def stagingDir (shared_directory dip_path : String) : String :=
  os_path_join
    (os_path_join (os_path_join shared_directory "watchedDirectories") "uploadDIP")
    (os_path_basename dip_path)

/-- The world the orchestrator's `main` runs against: what the filesystem and
network return at each step.  `copyError` and the two `rm*Error` fields are
the message of the `OSError`/`shutil.Error` the corresponding call raises
(`none` = the call succeeds); `postError` is an exception raised by
`requests.post` itself; `postAccepted` is whether the POST came back with
status 202 and a `Location` header; `pollResponses` scripts the poll GETs. -/
structure UploadEnv where
  stagingExists : Bool
  copyError : Option String
  postError : Option String
  postAccepted : Bool
  pollResponses : List PollHttp
  rmStagingError : Option String
  rmLocalError : Option String
deriving Repr

/-- Observable side effects of one orchestrator run, in order. -/
inductive Ev where
  | copytree (src dst : String)
  | httpPost (url : String)
  | httpGet
  | rmtree (path : String)
  | logError (msg : String)
  | logWarning (msg : String)
  | logInfo (msg : String)
deriving DecidableEq, Repr

/-- The final, unconditional part of the orchestrator: remove the staging
copy (failure logged, not fatal), then, when `delete_local_copy` was
requested, remove the source DIP (failure logged, not fatal), and return
`None`. -/
def uploadCleanup (env : UploadEnv) (dip_path upload_dip_dir : String)
    (delete_local_copy : Bool) (evs : List Ev) : Except PyExc (Option Nat) × List Ev :=
  let evs := evs ++ [Ev.logInfo "Removing duplicates.", Ev.rmtree upload_dip_dir]
  let evs := evs ++ (match env.rmStagingError with
    | some e => [Ev.logWarning ("Duplicates removal failed: " ++ e)]
    | none => [])
  let evs :=
    if delete_local_copy then
      evs ++ [Ev.logInfo "Deleting local DIP.", Ev.rmtree dip_path] ++
        (match env.rmLocalError with
          | some e => [Ev.logWarning ("DIP removal failed: " ++ e)]
          | none => [])
    else evs
  (Except.ok none, evs)

/-- Model of `storage_service_upload.main`.  Returns the Python return value
(`some 1` = staging path exists, `some 2` = staging copy failed, `none` =
fell off the end returning `None`) or a propagating exception, together with
the trace of side effects.  Mirrors the source: the POST is not guarded by
any handler; the poll is guarded by `except requests.exceptions.
RequestException` only, so a `KeyError` from `check_async` propagates out of
`main` before either cleanup step.  The request payload (fresh UUID, origin
and destination references, computed size) does not influence control flow
and is abstracted into the single `httpPost` event. -/
def ss_upload_main (env : UploadEnv) (ss_url shared_directory dip_path : String)
    (delete_local_copy : Bool) : Except PyExc (Option Nat) × List Ev :=
  let upload_dip_dir := stagingDir shared_directory dip_path
  if env.stagingExists then
    (Except.ok (some 1),
      [Ev.logError ("A directory already exists for the DIP in: " ++ upload_dip_dir)])
  else
    match env.copyError with
    | some e =>
      (Except.ok (some 2),
        [Ev.copytree dip_path upload_dip_dir,
         Ev.logWarning ("Could not move DIP to currently processing path: " ++ e)])
    | none =>
      let url := ss_url ++ "/api/v2/file/async/"
      let evs := [Ev.copytree dip_path upload_dip_dir, Ev.httpPost url]
      match env.postError with
      | some e => (Except.error (PyExc.requestException e), evs)
      | none =>
        if ¬ env.postAccepted then
          uploadCleanup env dip_path upload_dip_dir delete_local_copy
            (evs ++ [Ev.logError "Could not store DIP in SS: response text"])
        else
          let evs := evs ++ [Ev.logInfo "Storing DIP in SS."]
          let po := check_async env.pollResponses 60
          let evs := evs ++ List.replicate po.requestsCount Ev.httpGet
          match po.outcome with
          | Except.error (PyExc.keyError k) =>
              (Except.error (PyExc.keyError k), evs)
          | Except.error (PyExc.requestException e) =>
              uploadCleanup env dip_path upload_dip_dir delete_local_copy
                (evs ++ [Ev.logError ("Could not store DIP in SS: " ++ e)])
          | Except.ok none =>
              uploadCleanup env dip_path upload_dip_dir delete_local_copy
                (evs ++ [Ev.logWarning "Timeout checking the DIP storage result."])
          | Except.ok (some r) =>
              let evs := evs ++ [Ev.logInfo "DIP stored."] ++
                (match r.uuid with
                  | some u => [Ev.logInfo ("SS UUID: " ++ u)]
                  | none => [])
              uploadCleanup env dip_path upload_dip_dir delete_local_copy evs

/-- The exit code of `sys.exit(main(...))` in the standalone entry point:
`sys.exit(None)` exits with 0, `sys.exit(n)` with `n`. -/
def pythonExitCode : Option Nat → Nat
  | none => 0
  | some n => n

/-! ## Ledger and batch driver (`aips/create_dips_job.py`, `main`) -/

/-- The ledger's contents: the set of already-claimed AIP identifiers, here
as the list of rows of the single `Aip` table, whose `uuid` column is
unique. -/
abbrev Ledger := List String

/-- The one database exception the batch driver handles:
`sqlalchemy.exc.IntegrityError`, raised on a uniqueness violation. -/
inductive DbExc where
  | integrityError
deriving DecidableEq, Repr

/-- Modelled from the spec: the backing store `aips/models.py` (the `Aip`
table with its unique `uuid` column) is not among the sources, so its insert
semantics follows §4.1 of the design spec — inserting a row commits it
atomically, and a row whose identifier already exists violates the
uniqueness constraint and raises an integrity error instead of inserting. -/
def ledgerInsert (l : Ledger) (u : String) : Except DbExc Ledger :=
  if u ∈ l then Except.error DbExc.integrityError else Except.ok (u :: l)

/-- Outcome of one claim attempt, as the design spec's
`claim(handle, identifier) -> Claimed or AlreadyClaimed`. -/
inductive ClaimResult where
  | Claimed
  | AlreadyClaimed
deriving DecidableEq, Repr

/-- The claim step of the batch driver's loop (`create_dips_job.main`, the
`try: session.add(...); session.commit() except exc.IntegrityError` block):
insert the row directly and absorb the integrity error, rolling back, as the
"already claimed" outcome.  No exception escapes this step: its codomain is
a plain pair. -/
def claim_step (l : Ledger) (u : String) : ClaimResult × Ledger :=
  match ledgerInsert l u with
  | Except.ok l2 => (ClaimResult.Claimed, l2)
  | Except.error DbExc.integrityError => (ClaimResult.AlreadyClaimed, l)

/-- A Python value as returned by the external `create_dip.main`
collaborator: a path string on success, or a sentinel (the tests use the
integer `1`) or `None` on failure. -/
inductive PyVal where
  | str (s : String)
  | int (n : Int)
  | pynone
deriving DecidableEq, Repr

/-- Observable collaborator calls of one batch-driver run, in order. -/
inductive BatchEv where
  | createDip (uuid : String)
  | ssUploadCall (uuid : String) (dip : PyVal)
  | atomUploadCall (dip : PyVal)
deriving DecidableEq, Repr

/-- The per-identifier body of the batch driver's loop: claim the identifier
(skipping, with a debug note, when already claimed), invoke external DIP
creation, and dispatch on `upload_type` — passing whatever value DIP
creation returned straight to the upload collaborator, as the source does
(there is no guard on `dip_path` between the two calls). -/
def process_uuid (upload_type : Option String) (dip : String → PyVal)
    (l : Ledger) (u : String) : Ledger × List BatchEv :=
  match claim_step l u with
  | (ClaimResult.AlreadyClaimed, l2) => (l2, [])
  | (ClaimResult.Claimed, l2) =>
    let d := dip u
    let evs := [BatchEv.createDip u]
    if upload_type = some "ss-upload" then
      (l2, evs ++ [BatchEv.ssUploadCall u d])
    else if upload_type = some "atom-upload" then
      (l2, evs ++ [BatchEv.atomUploadCall d])
    else
      (l2, evs)

/-- The batch driver's loop over the filtered identifiers
(`for uuid in aip_uuids` in `create_dips_job.main`). -/
def batch_loop (upload_type : Option String) (dip : String → PyVal) :
    Ledger → List String → Ledger × List BatchEv
  | l, [] => (l, [])
  | l, u :: rest =>
    let step := process_uuid upload_type dip l u
    let next := batch_loop upload_type dip step.1 rest
    (next.1, step.2 ++ next.2)

/-! ## Helper lemmas about the batch driver loop -/

/-- The collaborator-call events `process_uuid` appends after `createDip`,
one per `upload_type` branch. -/
def uploadEvs (ut : Option String) (d : PyVal) (u : String) : List BatchEv :=
  if ut = some "ss-upload" then [BatchEv.ssUploadCall u d]
  else if ut = some "atom-upload" then [BatchEv.atomUploadCall d]
  else []

theorem process_uuid_mem (ut : Option String) (dip : String → PyVal)
    (l : Ledger) (u : String) (hu : u ∈ l) :
    process_uuid ut dip l u = (l, []) := by
  simp [process_uuid, claim_step, ledgerInsert, hu]

theorem process_uuid_new (ut : Option String) (dip : String → PyVal)
    (l : Ledger) (u : String) (hu : u ∉ l) :
    process_uuid ut dip l u =
      (u :: l, BatchEv.createDip u :: uploadEvs ut (dip u) u) := by
  simp only [process_uuid, claim_step, ledgerInsert, if_neg hu, uploadEvs]
  split
  · simp_all
  · split <;> simp_all

theorem createDip_not_mem_uploadEvs (ut : Option String) (d : PyVal)
    (u v : String) : BatchEv.createDip v ∉ uploadEvs ut d u := by
  unfold uploadEvs
  split
  · simp
  · split <;> simp

theorem batch_loop_no_createDip_of_claimed (ut : Option String)
    (dip : String → PyVal) (uuids : List String) :
    ∀ (l : Ledger) (u : String), u ∈ l →
      BatchEv.createDip u ∉ (batch_loop ut dip l uuids).2 := by
  induction uuids with
  | nil => intro l u _; simp [batch_loop]
  | cons u0 rest ih =>
    intro l u hu
    by_cases h0 : u0 ∈ l
    · rw [batch_loop, process_uuid_mem ut dip l u0 h0]
      simpa using ih l u hu
    · rw [batch_loop, process_uuid_new ut dip l u0 h0]
      simp only [List.cons_append, List.mem_cons, List.mem_append]
      rintro (h | h | h)
      · exact h0 (by injection h with h2; exact h2 ▸ hu)
      · exact createDip_not_mem_uploadEvs ut (dip u0) u0 u h
      · exact ih (u0 :: l) u (List.mem_cons_of_mem u0 hu) h

theorem batch_loop_createDip_of_new (ut : Option String)
    (dip : String → PyVal) (uuids : List String) :
    ∀ (l : Ledger) (v : String), v ∈ uuids → v ∉ l →
      BatchEv.createDip v ∈ (batch_loop ut dip l uuids).2 := by
  induction uuids with
  | nil => intro l v hv _; simp at hv
  | cons u0 rest ih =>
    intro l v hv hnl
    by_cases hveq : v = u0
    · subst hveq
      rw [batch_loop, process_uuid_new ut dip l v hnl]
      simp
    · have hv' : v ∈ rest := by
        rcases List.mem_cons.mp hv with h | h
        · exact absurd h hveq
        · exact h
      by_cases h0 : u0 ∈ l
      · rw [batch_loop, process_uuid_mem ut dip l u0 h0]
        simpa using ih l v hv' hnl
      · rw [batch_loop, process_uuid_new ut dip l u0 h0]
        have hnl' : v ∉ u0 :: l := by
          simp only [List.mem_cons]
          rintro (h | h)
          · exact hveq h
          · exact hnl h
        simp only [List.cons_append, List.mem_cons, List.mem_append]
        exact Or.inr (Or.inr (ih (u0 :: l) v hv' hnl'))

/-! ## Claim theorems -/

/-- Claim C1, counterexample: the claim quantifies over EVERY ledger, but on
a ledger that already contains the identifier the first of the two
successive attempts already yields `AlreadyClaimed`, not `Claimed`. -/
theorem claim_twice_counterexample :
    (claim_step ["a"] "a").1 = ClaimResult.AlreadyClaimed ∧
    ClaimResult.AlreadyClaimed ≠ ClaimResult.Claimed := by
  exact ⟨rfl, by decide⟩

/-- Claim C1 (amended): for every ledger and every identifier not already
claimed on it, claiming the identifier twice in succession yields `Claimed`
on the first attempt and `AlreadyClaimed` on the second; the second
attempt's raw insert raises the uniqueness-violation error, but the driver's
claim step absorbs it into the normal `AlreadyClaimed` outcome (its codomain
is a plain pair — no exception channel), leaving the ledger unchanged. -/
theorem claim_twice (l : Ledger) (u : String) (h : u ∉ l) :
    claim_step l u = (ClaimResult.Claimed, u :: l) ∧
    ledgerInsert (u :: l) u = Except.error DbExc.integrityError ∧
    claim_step (u :: l) u = (ClaimResult.AlreadyClaimed, u :: l) := by
  refine ⟨?_, ?_, ?_⟩ <;> simp [claim_step, ledgerInsert, h]

/-- Witness for C1 at the empty ledger and identifier `"a"`. -/
theorem claim_twice_witness :
    claim_step [] "a" = (ClaimResult.Claimed, ["a"]) ∧
    ledgerInsert ["a"] "a" = Except.error DbExc.integrityError ∧
    claim_step ["a"] "a" = (ClaimResult.AlreadyClaimed, ["a"]) :=
  claim_twice [] "a" (by simp)

/-- Claim C2: `filter_aips` returns exactly the identifiers of the records
whose current-location reference equals the canonical form of the target
(the fixed template without partial matching), preserving input order and
excluding records missing the `uuid` or `current_location` key; and on the
concrete input `[id A at L1, id B at L2, id C without location]` with target
`L2` it returns `["B"]`. -/
theorem filter_aips_correct (aips : List AipRecord) (location_uuid : String) :
    filter_aips aips location_uuid = filterByLocationSpec aips location_uuid ∧
    filter_aips
      [⟨some "A", some (locationTemplate "L1")⟩,
       ⟨some "B", some (locationTemplate "L2")⟩,
       ⟨some "C", none⟩] "L2" = ["B"] :=
  ⟨filterAipsGo_eq_spec location_uuid aips, by rfl⟩

/-- Claim C3: on a response script whose first two status payloads have
`completed=false` and whose third is completed without error carrying result
`uuid="u1"`, and any attempt limit of at least 3, the poller returns that
result after exactly 3 status requests and exactly 2 sleeps (one after each
incomplete response, none after the completed one). -/
theorem check_async_result_after_two_sleeps
    (p1 p2 : SsPayload) (rest : List PollHttp) (n : Nat) (u1 : String)
    (h1 : p1.completed = some false) (h2 : p2.completed = some false) :
    check_async
      (PollHttp.ok p1 :: PollHttp.ok p2 ::
        PollHttp.ok ⟨some true, some false, none, some ⟨some u1⟩⟩ :: rest)
      (n + 3) =
      ⟨Except.ok (some ⟨some u1⟩), 3, 2⟩ := by
  show check_async _ (Nat.succ (Nat.succ (Nat.succ n))) = _
  simp [check_async, h1, h2]

/-- Witness for C3 with minimal incomplete payloads, `rest = []`, attempt
limit exactly 3 and result uuid `"u1"`. -/
theorem check_async_result_after_two_sleeps_witness :
    check_async
      [PollHttp.ok ⟨some false, none, none, none⟩,
       PollHttp.ok ⟨some false, none, none, none⟩,
       PollHttp.ok ⟨some true, some false, none, some ⟨some "u1"⟩⟩] 3 =
      ⟨Except.ok (some ⟨some "u1"⟩), 3, 2⟩ :=
  check_async_result_after_two_sleeps ⟨some false, none, none, none⟩
    ⟨some false, none, none, none⟩ [] 0 "u1" rfl rfl

/-- Claim C4: with `tries = 2` and the first two scripted responses
incomplete, the poller falls off the loop returning `None` (TimedOut) after
exactly 2 status requests, raising no exception; and in general the poller
issues at most `tries` status requests on any response script. -/
theorem check_async_timeout (p1 p2 : SsPayload) (rest : List PollHttp)
    (h1 : p1.completed = some false) (h2 : p2.completed = some false) :
    check_async (PollHttp.ok p1 :: PollHttp.ok p2 :: rest) 2 =
      ⟨Except.ok none, 2, 2⟩ ∧
    ∀ (rs : List PollHttp) (t : Nat), (check_async rs t).requestsCount ≤ t := by
  refine ⟨?_, check_async_requests_le⟩
  show check_async _ (Nat.succ (Nat.succ 0)) = _
  simp [check_async, h1, h2]

/-- Witness for C4 with minimal incomplete payloads and an empty tail. -/
theorem check_async_timeout_witness :
    check_async
      [PollHttp.ok ⟨some false, none, none, none⟩,
       PollHttp.ok ⟨some false, none, none, none⟩] 2 =
      ⟨Except.ok none, 2, 2⟩ ∧
    ∀ (rs : List PollHttp) (t : Nat), (check_async rs t).requestsCount ≤ t :=
  check_async_timeout ⟨some false, none, none, none⟩
    ⟨some false, none, none, none⟩ [] rfl rfl

/-- Claim C5, failing input: the batch driver has no guard between DIP
creation and the upload dispatch, so when the external DIP creation returns
a sentinel (the integer `1`, as in the repository's own
`test_main_dip_creation_failed`, which asserts the upload is NOT called) or
the falsy `None`, the upload collaborator is still invoked with that value
as `dip_path`. -/
theorem batch_upload_called_on_failed_dip :
    batch_loop (some "atom-upload") (fun _ => PyVal.int 1) [] ["u1"] =
      (["u1"], [BatchEv.createDip "u1", BatchEv.atomUploadCall (PyVal.int 1)]) ∧
    batch_loop (some "ss-upload") (fun _ => PyVal.pynone) [] ["u1"] =
      (["u1"], [BatchEv.createDip "u1",
        BatchEv.ssUploadCall "u1" PyVal.pynone]) := by
  exact ⟨rfl, rfl⟩

/-- Claim C6, failing input: on a rejected submission (not-accepted status or
missing `Location` header) the orchestrator's `main` merely logs, runs the
cleanup and falls off the end returning `None`, so the standalone process
exits 0, not 3; likewise a transport fault while polling is caught, cleanup
runs and `None` is returned, so the process exits 0, not 4.  The
repository's own tests (`test_request_fail`, `test_async_fail`) assert
return values 3 and 4 respectively. -/
theorem ss_upload_exit_codes_failing :
    (ss_upload_main ⟨false, none, none, false, [], none, none⟩
        "http://ss" "/sd" "/tmp/dip" false).1 = Except.ok none ∧
    (ss_upload_main ⟨false, none, none, true,
        [PollHttp.transportError "boom"], none, none⟩
        "http://ss" "/sd" "/tmp/dip" false).1 = Except.ok none ∧
    pythonExitCode none = 0 ∧ (0 : Nat) ≠ 3 ∧ (0 : Nat) ≠ 4 := by
  refine ⟨rfl, rfl, rfl, by decide, by decide⟩

/-- Claim C7: when the submission is accepted and the poll payload is
`completed=true, was_error=true, error="x"`, the poller raises a request
exception that `main`'s handler catches; the run logs the failure, still
removes the staging copy, and, when `delete_local_copy` was requested, still
removes the source DIP path, returning `None`. -/
theorem ss_upload_poll_error_still_cleans
    (ss_url sd dip : String) (dlc : Bool) (rse rle : Option String) :
    (ss_upload_main
        ⟨false, none, none, true,
          [PollHttp.ok ⟨some true, some true, some "x", none⟩], rse, rle⟩
        ss_url sd dip dlc).1 = Except.ok none ∧
    Ev.logError "Could not store DIP in SS: x" ∈ (ss_upload_main
        ⟨false, none, none, true,
          [PollHttp.ok ⟨some true, some true, some "x", none⟩], rse, rle⟩
        ss_url sd dip dlc).2 ∧
    Ev.rmtree (stagingDir sd dip) ∈ (ss_upload_main
        ⟨false, none, none, true,
          [PollHttp.ok ⟨some true, some true, some "x", none⟩], rse, rle⟩
        ss_url sd dip dlc).2 ∧
    (dlc = true → Ev.rmtree dip ∈ (ss_upload_main
        ⟨false, none, none, true,
          [PollHttp.ok ⟨some true, some true, some "x", none⟩], rse, rle⟩
        ss_url sd dip dlc).2) := by
  have hca : check_async [PollHttp.ok ⟨some true, some true, some "x", none⟩] 60 =
      ⟨Except.error (PyExc.requestException "x"), 1, 0⟩ := rfl
  cases rse <;> cases rle <;> cases dlc <;>
    simp [ss_upload_main, hca, uploadCleanup]

/-- Witness for C7 at concrete paths with `delete_local_copy = true`: the
source DIP path removal does run. -/
theorem ss_upload_poll_error_still_cleans_witness :
    Ev.rmtree "/tmp/dip" ∈ (ss_upload_main
        ⟨false, none, none, true,
          [PollHttp.ok ⟨some true, some true, some "x", none⟩], none, none⟩
        "http://ss" "/sd" "/tmp/dip" true).2 :=
  (ss_upload_poll_error_still_cleans "http://ss" "/sd" "/tmp/dip"
    true none none).2.2.2 rfl

/-- Claim C8: whenever a filesystem entry already exists at the computed
staging path, the orchestrator returns `1` (process exit code 1) and its
whole side-effect trace is the single error log line: no copy is attempted,
no HTTP request is made, nothing is removed, so the source DIP path is left
untouched. -/
theorem ss_upload_staging_exists_no_effects
    (env : UploadEnv) (ss_url sd dip : String) (dlc : Bool)
    (h : env.stagingExists = true) :
    ss_upload_main env ss_url sd dip dlc =
      (Except.ok (some 1),
        [Ev.logError ("A directory already exists for the DIP in: " ++
          stagingDir sd dip)]) ∧
    pythonExitCode (some 1) = 1 := by
  refine ⟨?_, rfl⟩
  simp [ss_upload_main, h]

/-- Witness for C8 at a concrete environment whose staging path exists. -/
theorem ss_upload_staging_exists_no_effects_witness :
    ss_upload_main ⟨true, none, none, false, [], none, none⟩
        "http://ss" "/sd" "/tmp/dip" true =
      (Except.ok (some 1),
        [Ev.logError ("A directory already exists for the DIP in: " ++
          stagingDir "/sd" "/tmp/dip")]) ∧
    pythonExitCode (some 1) = 1 :=
  ss_upload_staging_exists_no_effects ⟨true, none, none, false, [], none, none⟩
    "http://ss" "/sd" "/tmp/dip" true rfl

/-- Claim C9: in a batch run whose initial ledger already contains an
identifier, DIP creation is never invoked for any identifier claimed before
the run, while every filtered identifier not previously claimed does get its
DIP-creation call. -/
theorem batch_skips_claimed_processes_rest (ut : Option String)
    (dip : String → PyVal) (l : Ledger) (uuids : List String) :
    (∀ u ∈ l, BatchEv.createDip u ∉ (batch_loop ut dip l uuids).2) ∧
    (∀ v ∈ uuids, v ∉ l → BatchEv.createDip v ∈ (batch_loop ut dip l uuids).2) :=
  ⟨fun u hu => batch_loop_no_createDip_of_claimed ut dip uuids l u hu,
   fun v hv hnl => batch_loop_createDip_of_new ut dip uuids l v hv hnl⟩

/-- Witness for C9: identifier `"B"` is pre-claimed, so the run over
`["A", "B", "C"]` creates no DIP for `"B"` but does for `"A"` and `"C"`. -/
theorem batch_skips_claimed_processes_rest_witness :
    BatchEv.createDip "B" ∉ (batch_loop none (fun _ => PyVal.str "p") ["B"]
      ["A", "B", "C"]).2 ∧
    BatchEv.createDip "A" ∈ (batch_loop none (fun _ => PyVal.str "p") ["B"]
      ["A", "B", "C"]).2 ∧
    BatchEv.createDip "C" ∈ (batch_loop none (fun _ => PyVal.str "p") ["B"]
      ["A", "B", "C"]).2 :=
  ⟨(batch_skips_claimed_processes_rest none (fun _ => PyVal.str "p") ["B"]
      ["A", "B", "C"]).1 "B" (by simp),
   (batch_skips_claimed_processes_rest none (fun _ => PyVal.str "p") ["B"]
      ["A", "B", "C"]).2 "A" (by simp) (by simp),
   (batch_skips_claimed_processes_rest none (fun _ => PyVal.str "p") ["B"]
      ["A", "B", "C"]).2 "C" (by simp) (by simp)⟩

/-- Claim C10: when a poll status request succeeds at the transport level but
its payload lacks the `completed` key — or is completed but lacks the
`was_error` key, or the `error` or `result` key it then needs — the poller
raises a `KeyError`; `main`'s handler catches only request exceptions, so
the `KeyError` propagates out of the upload operation, whose entire trace
stops at the poll GET: neither the staging-copy removal nor the local-copy
removal runs. -/
theorem ss_upload_keyerror_propagates (ss_url sd dip : String) (dlc : Bool)
    (w : Option Bool) (e : Option String) (r0 : Option SsResult) :
    ss_upload_main ⟨false, none, none, true, [PollHttp.ok ⟨none, w, e, r0⟩],
        none, none⟩ ss_url sd dip dlc =
      (Except.error (PyExc.keyError "completed"),
        [Ev.copytree dip (stagingDir sd dip),
         Ev.httpPost (ss_url ++ "/api/v2/file/async/"),
         Ev.logInfo "Storing DIP in SS.", Ev.httpGet]) ∧
    ss_upload_main ⟨false, none, none, true,
        [PollHttp.ok ⟨some true, none, e, r0⟩], none, none⟩
        ss_url sd dip dlc =
      (Except.error (PyExc.keyError "was_error"),
        [Ev.copytree dip (stagingDir sd dip),
         Ev.httpPost (ss_url ++ "/api/v2/file/async/"),
         Ev.logInfo "Storing DIP in SS.", Ev.httpGet]) ∧
    ss_upload_main ⟨false, none, none, true,
        [PollHttp.ok ⟨some true, some true, none, r0⟩], none, none⟩
        ss_url sd dip dlc =
      (Except.error (PyExc.keyError "error"),
        [Ev.copytree dip (stagingDir sd dip),
         Ev.httpPost (ss_url ++ "/api/v2/file/async/"),
         Ev.logInfo "Storing DIP in SS.", Ev.httpGet]) ∧
    ss_upload_main ⟨false, none, none, true,
        [PollHttp.ok ⟨some true, some false, e, none⟩], none, none⟩
        ss_url sd dip dlc =
      (Except.error (PyExc.keyError "result"),
        [Ev.copytree dip (stagingDir sd dip),
         Ev.httpPost (ss_url ++ "/api/v2/file/async/"),
         Ev.logInfo "Storing DIP in SS.", Ev.httpGet]) := by
  refine ⟨rfl, rfl, rfl, rfl⟩

end AutomationTools
